import Mathlib

/-!
Verification of the discover-errors repository: a shallow embedding of its
error classifier (src/cloudflare/errors.ts, src/cloudflare/client.ts), its
probe executor tool (src/agent/tools.ts, CallApi and recordError) and its
catalog exporters (src/output/types-generator.ts, src/output/json-generator.ts),
together with theorems settling the specification claims about them.

Conventions of the embedding:
- machine numbers are Nat (all numeric codes and HTTP statuses in the source
  are non-negative integers);
- JavaScript `undefined` on an optional field is `Option.none`;
- the host clock (`new Date().toISOString()`) is passed in explicitly as a
  `now : String` argument;
- a JSON value that the source only ever serializes or compares by its
  serialization (trigger inputs) is modelled by its serialized string;
- fallible steps return Except / Option.
-/

namespace DiscoverErrors

/-! ## src/cloudflare/types.ts -/

/-- Cloudflare API error object as returned in the response
(interface CloudflareApiError in src/cloudflare/types.ts). -/
structure CloudflareApiError where
  code : Nat
  message : String
deriving DecidableEq, Repr

/-- Standard Cloudflare API response wrapper
(interface CloudflareResponse in src/cloudflare/types.ts).
The result payload `T | null` is modelled as an optional serialized value:
`none` is the JSON null. -/
structure CloudflareResponse where
  success : Bool
  errors : List CloudflareApiError
  messages : List String
  result : Option String
deriving DecidableEq, Repr

/-- interface CloudflareConfig in src/cloudflare/types.ts. -/
structure CloudflareConfig where
  baseUrl : String
  retryAttempts : Nat
  retryDelayMs : Nat
deriving DecidableEq, Repr

/-- const defaultCloudflareConfig in src/cloudflare/types.ts. -/
def defaultCloudflareConfig : CloudflareConfig :=
  { baseUrl := "https://api.cloudflare.com/client/v4"
    retryAttempts := 3
    retryDelayMs := 1000 }

/-! ## src/cloudflare/errors.ts

The source declares one Data.TaggedError class per error kind and the union
type CloudflareErrorType of all of them.  Each API-level class carries
code / message / httpStatus (the extra optional fields retryAfter, field,
resourceType, quotaType are never set by any constructor call in the
repository and are omitted); HttpError carries statusCode / statusText /
message and ParseError carries message (its `cause` is never read). -/

inductive CloudflareErrorType
  | CloudflareError (code : Nat) (message : String) (httpStatus : Option Nat)
  | UnknownCloudflareError (code : Nat) (message : String) (httpStatus : Option Nat)
      (rawError : CloudflareApiError)
  | AuthenticationError (code : Nat) (message : String) (httpStatus : Option Nat)
  | RateLimitError (code : Nat) (message : String) (httpStatus : Option Nat)
  | NotFoundError (code : Nat) (message : String) (httpStatus : Option Nat)
  | ValidationError (code : Nat) (message : String) (httpStatus : Option Nat)
  | QuotaExceededError (code : Nat) (message : String) (httpStatus : Option Nat)
  | AlreadyExistsError (code : Nat) (message : String) (httpStatus : Option Nat)
  | HttpError (statusCode : Nat) (statusText : String) (message : String)
  | ParseError (message : String)
deriving DecidableEq, Repr

/-- The discriminant string `_tag` of each error class. -/
def tagOf : CloudflareErrorType → String
  | .CloudflareError .. => "CloudflareError"
  | .UnknownCloudflareError .. => "UnknownCloudflareError"
  | .AuthenticationError .. => "AuthenticationError"
  | .RateLimitError .. => "RateLimitError"
  | .NotFoundError .. => "NotFoundError"
  | .ValidationError .. => "ValidationError"
  | .QuotaExceededError .. => "QuotaExceededError"
  | .AlreadyExistsError .. => "AlreadyExistsError"
  | .HttpError .. => "HttpError"
  | .ParseError .. => "ParseError"

/-- The `message` field every error class carries. -/
def messageOf : CloudflareErrorType → String
  | .CloudflareError _ m _ => m
  | .UnknownCloudflareError _ m _ _ => m
  | .AuthenticationError _ m _ => m
  | .RateLimitError _ m _ => m
  | .NotFoundError _ m _ => m
  | .ValidationError _ m _ => m
  | .QuotaExceededError _ m _ => m
  | .AlreadyExistsError _ m _ => m
  | .HttpError _ _ m => m
  | .ParseError m => m

/-- The JavaScript test `"code" in err ? err.code : 0` used by CallApi:
HttpError has a statusCode field but no code field, ParseError has neither. -/
def codeOf : CloudflareErrorType → Nat
  | .CloudflareError c _ _ => c
  | .UnknownCloudflareError c _ _ _ => c
  | .AuthenticationError c _ _ => c
  | .RateLimitError c _ _ => c
  | .NotFoundError c _ _ => c
  | .ValidationError c _ _ => c
  | .QuotaExceededError c _ _ => c
  | .AlreadyExistsError c _ _ => c
  | .HttpError .. => 0
  | .ParseError _ => 0

/-- The canonical category vocabulary of the specification (section 3):
each error class of the source realizes exactly one category; HttpError and
ParseError are the transport-level Network and Parse failures. -/
inductive Category
  | Authentication | RateLimit | NotFound | Validation
  | QuotaExceeded | AlreadyExists | Unknown | Network | Parse
deriving DecidableEq, Repr

/-- The category realized by each error class of the source. -/
def categoryOf : CloudflareErrorType → Category
  | .CloudflareError .. => .Unknown
  | .UnknownCloudflareError .. => .Unknown
  | .AuthenticationError .. => .Authentication
  | .RateLimitError .. => .RateLimit
  | .NotFoundError .. => .NotFound
  | .ValidationError .. => .Validation
  | .QuotaExceededError .. => .QuotaExceeded
  | .AlreadyExistsError .. => .AlreadyExists
  | .HttpError .. => .Network
  | .ParseError _ => .Parse

/-- const COMMON_ERROR_CODES in src/cloudflare/errors.ts: the numeric-code
table `Record<number, constructor>`, mapping a provider code to the error
class constructor applied to (code, message, httpStatus). -/
def COMMON_ERROR_CODES : Nat → Option (Nat → String → Option Nat → CloudflareErrorType)
  | 9103 => some CloudflareErrorType.AuthenticationError
  | 9109 => some CloudflareErrorType.AuthenticationError
  | 9106 => some CloudflareErrorType.AuthenticationError
  | 6003 => some CloudflareErrorType.RateLimitError
  | 1001 => some CloudflareErrorType.ValidationError
  | 1004 => some CloudflareErrorType.ValidationError
  | 1006 => some CloudflareErrorType.ValidationError
  | 10000 => some CloudflareErrorType.NotFoundError
  | _ => none

/-- const HTTP_STATUS_TO_ERROR in src/cloudflare/errors.ts: the
status-to-class table used when the numeric code is not recognized. -/
def HTTP_STATUS_TO_ERROR : Nat → Option (Nat → String → Option Nat → CloudflareErrorType)
  | 400 => some CloudflareErrorType.ValidationError
  | 401 => some CloudflareErrorType.AuthenticationError
  | 403 => some CloudflareErrorType.AuthenticationError
  | 404 => some CloudflareErrorType.NotFoundError
  | 409 => some CloudflareErrorType.AlreadyExistsError
  | 429 => some CloudflareErrorType.RateLimitError
  | _ => none

/-! ## src/cloudflare/client.ts : parseCloudflareError -/

/-- parseCloudflareError in src/cloudflare/client.ts.  The guard
`httpStatus && HTTP_STATUS_TO_ERROR[httpStatus]` requires httpStatus to be
present and truthy (nonzero) before the status table is consulted. -/
def parseCloudflareError (response : CloudflareResponse) (httpStatus : Option Nat) :
    CloudflareErrorType :=
  match response.errors with
  | [] =>
      .CloudflareError 0
        "Unknown error: API returned success=false but no error details" httpStatus
  | primaryError :: _ =>
      let code := primaryError.code
      let message := primaryError.message
      match COMMON_ERROR_CODES code with
      | some ErrorClass => ErrorClass code message httpStatus
      | none =>
          match httpStatus.bind
              (fun hs => if hs = 0 then none else HTTP_STATUS_TO_ERROR hs) with
          | some StatusErrorClass => StatusErrorClass code message httpStatus
          | none => .UnknownCloudflareError code message httpStatus primaryError

/-- A failed envelope with the given error list (success=false, no messages,
null result), as the classifier claims quantify over it. -/
def mkFailEnvelope (errors : List CloudflareApiError) : CloudflareResponse :=
  { success := false, errors := errors, messages := [], result := none }

/-! ## src/cloudflare/client.ts : makeRequest

The transport is the host `fetch`: on each attempt it either rejects
(network failure) or resolves to an HTTP response carrying a status, a
statusText and a body that `response.json()` either parses into a
CloudflareResponse or fails to parse (`none`).  An attempt-indexed function
models the sequence of fetch results a given environment would produce. -/

/-- One settled result of the `fetch` promise. -/
inductive FetchResult
  | networkFailure (message : String)
  | httpResponse (status : Nat) (statusText : String) (body : Option CloudflareResponse)
deriving DecidableEq, Repr

/-- The resolved `Response` value of a non-rejected fetch. -/
structure HttpResponseValue where
  status : Nat
  statusText : String
  body : Option CloudflareResponse
deriving DecidableEq, Repr

/-- `response.ok` of the fetch standard: status in the range 200..299. -/
def responseOk (status : Nat) : Bool :=
  200 ≤ status && status < 300

/-- The Effect.tryPromise around fetch in makeRequest: a rejection is mapped
to `new HttpError({statusCode: 0, statusText: "Network Error", message})`. -/
def fetchStep (transport : Nat → FetchResult) (i : Nat) :
    Except CloudflareErrorType HttpResponseValue :=
  match transport i with
  | .networkFailure msg => .error (.HttpError 0 "Network Error" msg)
  | .httpResponse status statusText body => .ok ⟨status, statusText, body⟩

/-- Effect.retry with
`Schedule.exponential(retryDelayMs) |> compose (Schedule.recurs n) |> whileInput pred`
applied to the fetch step: after a failure e the step is re-executed only
while `pred e` holds and at most n retries have been taken.  Returns the
final outcome and the total number of attempts executed. -/
def retryWhileInput (pred : CloudflareErrorType → Bool)
    (step : Nat → Except CloudflareErrorType HttpResponseValue) :
    Nat → Nat → Except CloudflareErrorType HttpResponseValue × Nat
  | retriesLeft, attemptsMade =>
    match step attemptsMade with
    | .ok r => (.ok r, attemptsMade + 1)
    | .error e =>
        if pred e then
          match retriesLeft with
          | 0 => (.error e, attemptsMade + 1)
          | r + 1 => retryWhileInput pred step r (attemptsMade + 1)
        else (.error e, attemptsMade + 1)

/-- The retry predicate of makeRequest:
`Schedule.whileInput((error) => error._tag === "RateLimitError")`. -/
def isRateLimitTag (e : CloudflareErrorType) : Bool :=
  tagOf e == "RateLimitError"

/-- The body of makeRequest after the retried fetch step, in source order:
on non-ok status parse the error body (ParseError when it is not JSON) and
fail with the classified error; otherwise parse the success body (ParseError
when it is not JSON); fail with the classified error when success=false;
fail with a generic CloudflareError when result is null; otherwise succeed
with the result. -/
def processResponse (fetched : Except CloudflareErrorType HttpResponseValue) :
    Except CloudflareErrorType String :=
  match fetched with
  | .error e => .error e
  | .ok response =>
      if !responseOk response.status then
        match response.body with
        | none =>
            .error (.ParseError ("Failed to parse error response: " ++ response.statusText))
        | some errorBody =>
            .error (parseCloudflareError errorBody (some response.status))
      else
        match response.body with
        | none => .error (.ParseError "Failed to parse response body")
        | some data =>
            if !data.success then
              .error (parseCloudflareError data (some response.status))
            else
              match data.result with
              | none =>
                  .error (.CloudflareError 0
                    "API returned success=true but result is null" (some response.status))
              | some r => .ok r

/-- makeRequest in src/cloudflare/client.ts, instrumented with the number of
fetch attempts executed.  URL construction, headers and body serialization
do not affect the failure/retry behaviour and are carried by the transport. -/
def makeRequestWithCount (config : CloudflareConfig) (transport : Nat → FetchResult) :
    Except CloudflareErrorType String × Nat :=
  let fetched := retryWhileInput isRateLimitTag (fetchStep transport) config.retryAttempts 0
  (processResponse fetched.1, fetched.2)

/-- makeRequest proper: the outcome, attempts dropped. -/
def makeRequest (config : CloudflareConfig) (transport : Nat → FetchResult) :
    Except CloudflareErrorType String :=
  (makeRequestWithCount config transport).1

/-! ## src/agent/tools.ts : the discovery Ledger and CallApi -/

/-- interface DiscoveredError in src/output/types-generator.ts.  The fields
isDocumented, category (and the optional httpStatus, triggerInput) are left
undefined (`none`) by recordError, which only ever sets the first five
fields and discoveredAt; triggerInput is modelled by its JSON serialization,
which is the only view the exporter takes of it. -/
structure DiscoveredError where
  service : String
  operation : String
  tag : String
  code : Nat
  message : String
  httpStatus : Option Nat := none
  discoveredAt : String
  isDocumented : Option Bool := none
  triggerInput : Option String := none
  category : Option String := none
deriving DecidableEq, Repr

/-- recordError in src/agent/tools.ts: pushes one record holding exactly
service, operation, tag, code, message and discoveredAt onto the
discoveredErrors array (the isNew flag only controls a debug log line).
The clock read `new Date().toISOString()` is the `now` argument. -/
def recordError (discoveredErrors : List DiscoveredError)
    (service operation tag : String) (code : Nat) (message : String)
    (_isNew : Bool) (now : String) : List DiscoveredError :=
  discoveredErrors ++
    [{ service := service, operation := operation, tag := tag,
       code := code, message := message, discoveredAt := now }]

/-- An operation as CallApi sees it after getOperation: its declared known
error tags (`op.errors.map(e => e._tag)`) and its executable behaviour over
a parsed input object of type Obj (the service modules close over the
external transport, so the behaviour is the scenario under test). -/
structure Operation (Obj : Type) where
  knownErrorTags : List String
  run : Obj → Except CloudflareErrorType String

/-- The environment CallApi consults: getService/getOperation over the fixed
service modules, and the host JSON.parse restricted to producing an input
object (failure is `none`); emptyObj is the object `{}`. -/
structure ToolRegistry (Obj : Type) where
  getOperation : String → String → Option (Operation Obj)
  parseJson : String → Option Obj
  emptyObj : Obj

/-- The result of one CallApi tool call, one constructor per return path of
the source (the source renders each as a string; the constructor arguments
are exactly the data interpolated into that string):
operationNotFound is the Effect.fail path; invalidJson is the
"Error: Invalid JSON input" return; success carries the truncated
JSON summary; newErrorDiscovered / knownError carry the recorded tag and
message of the caught error. -/
inductive CallOutcome
  | operationNotFound (operation service : String)
  | invalidJson (input : String)
  | success (summary : String)
  | newErrorDiscovered (tag message : String)
  | knownError (tag message : String)
deriving DecidableEq, Repr

/-- The host `input.trim()`: strip leading and trailing whitespace. -/
def trimString (s : String) : String :=
  String.mk (((s.toList.dropWhile Char.isWhitespace).reverse.dropWhile
    Char.isWhitespace).reverse)

/-- The input-parsing step of CallApi: an empty or "\x7b\x7d" trim yields the
empty object, anything else goes through the host JSON.parse. -/
def parseInputString {Obj : Type} (reg : ToolRegistry Obj) (input : String) :
    Option Obj :=
  let trimmed := trimString input
  if trimmed = "" || trimmed = "\x7b\x7d" then some reg.emptyObj
  else reg.parseJson trimmed

/-- The Effect.catchAll handler of CallApi: record the caught error exactly
once via recordError and report it as newly discovered when its tag is not
among the known error tags of the operation. -/
def handleOpFailure {Obj : Type} (op : Operation Obj) (now : String)
    (ledger : List DiscoveredError) (service operation : String)
    (err : CloudflareErrorType) : CallOutcome × List DiscoveredError :=
  let errorTag := tagOf err
  let message := messageOf err
  let code := codeOf err
  let isNew := !(op.knownErrorTags.contains errorTag)
  let ledger2 := recordError ledger service operation errorTag code message isNew now
  if isNew then (.newErrorDiscovered errorTag message, ledger2)
  else (.knownError errorTag message, ledger2)

/-- CallApi in src/agent/tools.ts (the toolsLayer implementation), acting on
the discoveredErrors array state.  The input parameter always arrives as a
string from the tool schema. -/
def CallApi {Obj : Type} (reg : ToolRegistry Obj) (now : String)
    (ledger : List DiscoveredError) (service operation input : String) :
    CallOutcome × List DiscoveredError :=
  match reg.getOperation service operation with
  | none => (.operationNotFound operation service, ledger)
  | some op =>
      match parseInputString reg input with
      | none => (.invalidJson input, ledger)
      | some parsed =>
          match op.run parsed with
          | .ok response => (.success (response.take 200), ledger)
          | .error err => handleOpFailure op now ledger service operation err

/-- Whether a CallApi outcome is a failed probe: the underlying operation
was executed and signalled an error that was caught and reported. -/
def isFailedProbe : CallOutcome → Bool
  | .newErrorDiscovered .. => true
  | .knownError .. => true
  | _ => false

/-! ## Ordered string-keyed records

JavaScript objects and Maps enumerate keys in insertion order, and both
`obj[k] = v` on an existing key and `Map.set` on an existing key keep the
original position.  Association lists with in-place update model this. -/

/-- Lookup in an insertion-ordered record. -/
def lookupA {α : Type} (l : List (String × α)) (k : String) : Option α :=
  (l.find? (fun p => p.1 = k)).map (fun p => p.2)

/-- Update the value at an existing key in place (no effect if absent). -/
def updateA {α : Type} (l : List (String × α)) (k : String) (f : α → α) :
    List (String × α) :=
  l.map (fun p => if p.1 = k then (p.1, f p.2) else p)

/-- `Map.set` / `obj[k] = v`: replace in place when present, append when absent. -/
def setA {α : Type} (l : List (String × α)) (k : String) (v : α) :
    List (String × α) :=
  if (lookupA l k).isSome then updateA l k (fun _ => v) else l ++ [(k, v)]

/-! ## src/output/json-generator.ts -/

/-- interface ErrorGuidance. -/
structure ErrorGuidance where
  retryable : Bool
  suggestion : String
deriving DecidableEq, Repr

/-- interface UniqueError: one aggregated catalog entry.  The category and
isDocumented fields copy the (possibly undefined) record fields. -/
structure UniqueError where
  code : Nat
  httpStatus : Option Nat
  category : Option String
  isDocumented : Option Bool
  message : String
  triggerExamples : List String
  occurrences : Nat
  handling : ErrorGuidance
  firstSeen : String
deriving DecidableEq, Repr

/-- interface OperationErrors: per-operation documented tags and the
tag-keyed record of unique errors. -/
structure OperationErrors where
  documentedErrors : List String
  errors : List (String × UniqueError)
deriving DecidableEq, Repr

/-- The summary block of EnhancedErrorCatalog. -/
structure CatalogSummary where
  totalUniqueErrors : Nat
  documentedErrors : Nat
  undocumentedErrors : Nat
  operationsCovered : List String
  documentationCoverage : String
deriving DecidableEq, Repr

/-- interface EnhancedErrorCatalog. -/
structure EnhancedErrorCatalog where
  service : String
  generatedAt : String
  summary : CatalogSummary
  operations : List (String × OperationErrors)
deriving DecidableEq, Repr

/-- getErrorGuidance in src/output/json-generator.ts: a switch on the
category string; an undefined category falls to the default branch. -/
def getErrorGuidance (_tag : String) (_code : Nat) (category : Option String) :
    ErrorGuidance :=
  match category with
  | some "rate_limit" =>
      { retryable := true
        suggestion := "Implement exponential backoff. Check Retry-After header." }
  | some "authentication" =>
      { retryable := false
        suggestion := "Verify API token is valid and has required permissions." }
  | some "not_found" =>
      { retryable := false
        suggestion := "Verify resource exists before calling. Handle 404 gracefully." }
  | some "validation" =>
      { retryable := false
        suggestion := "Check input against schema. See message for specific field issues." }
  | some "quota" =>
      { retryable := false
        suggestion := "Check account limits. Consider upgrading plan or cleaning up resources." }
  | some "conflict" =>
      { retryable := false
        suggestion := "Resource already exists. Use update instead of create, or check for duplicates." }
  | _ =>
      { retryable := false
        suggestion := "Check error message for details. Contact Cloudflare support if persistent." }

/-- The JavaScript truthiness of the isDocumented field
(`error.isDocumented` with undefined and false both falsy). -/
def isDocTruthy (b : Option Bool) : Bool :=
  b == some true

/-- The UniqueError created on first sight of a tag: occurrences 0 (the
increment follows immediately), triggerExamples empty, all other fields
copied from the current record. -/
def newEntry (error : DiscoveredError) : UniqueError :=
  { code := error.code
    httpStatus := error.httpStatus
    category := error.category
    isDocumented := error.isDocumented
    message := error.message
    triggerExamples := []
    occurrences := 0
    handling := getErrorGuidance error.tag error.code error.category
    firstSeen := error.discoveredAt }

/-- The per-record mutation of the existing UniqueError: increment
occurrences, then push the trigger input when it is present, fewer than 3
examples are stored, and it is not already listed. -/
def bumpEntry (error : DiscoveredError) (u : UniqueError) : UniqueError :=
  let u := { u with occurrences := u.occurrences + 1 }
  match error.triggerInput with
  | some inputStr =>
      if u.triggerExamples.length < 3 && !(u.triggerExamples.contains inputStr)
      then { u with triggerExamples := u.triggerExamples ++ [inputStr] }
      else u
  | none => u

/-- The body of the per-record loop of generateServiceJson on one operation
entry: push the tag onto documentedErrors when the record is documented and
the tag is not yet listed, create the UniqueError on first sight of the
tag, then apply the per-record mutation to it. -/
def foldOpRecord (error : DiscoveredError) (op : OperationErrors) :
    OperationErrors :=
  let docTags :=
    if isDocTruthy error.isDocumented && !(op.documentedErrors.contains error.tag)
    then op.documentedErrors ++ [error.tag]
    else op.documentedErrors
  let errs :=
    match lookupA op.errors error.tag with
    | some _ => op.errors
    | none => op.errors ++ [(error.tag, newEntry error)]
  let errs := updateA errs error.tag (bumpEntry error)
  { documentedErrors := docTags, errors := errs }

/-- The per-record loop of generateServiceJson acting on the operations
record: initialize the operation entry if needed, then fold the record into
it. -/
def recordIntoOperations (operations : List (String × OperationErrors))
    (error : DiscoveredError) : List (String × OperationErrors) :=
  let operations :=
    match lookupA operations error.operation with
    | some _ => operations
    | none => operations ++ [(error.operation, { documentedErrors := [], errors := [] })]
  updateA operations error.operation (foldOpRecord error)

/-- One iteration of the generateServiceJson loop on the full state: fold
the record into the operations record and point allUniqueErrors[tag:code] at
the (operation, tag) slot holding the mutable entry. -/
def catStep
    (st : List (String × OperationErrors) × List (String × (String × String)))
    (error : DiscoveredError) :
    List (String × OperationErrors) × List (String × (String × String)) :=
  let operations := recordIntoOperations st.1 error
  let errorKey := error.tag ++ ":" ++ toString error.code
  let allUnique := setA st.2 errorKey (error.operation, error.tag)
  (operations, allUnique)

/-- The full loop state of generateServiceJson: the operations record
together with allUniqueErrors.  The source Map stores references to the
mutable UniqueError objects; an object is identified by the (operation, tag)
slot it lives in, so the map stores that slot and is dereferenced against
the final operations record when the summary is computed. -/
def catalogState (serviceErrors : List DiscoveredError) :
    List (String × OperationErrors) × List (String × (String × String)) :=
  serviceErrors.foldl catStep ([], [])

/-- Math.round(num / den * 100) for 0 ≤ num ≤ den, den > 0, in exact
arithmetic: round half up, computed as floor((200 num + den) / (2 den)). -/
def jsRoundPercent (num den : Nat) : Nat :=
  (200 * num + den) / (2 * den)

/-- The uniqueErrorList of generateServiceJson: the values of the
allUniqueErrors map, each dereferenced against the final operations record
(the source Map holds references to the mutable entry objects). -/
def uniqueErrorsOf (service : String) (errors : List DiscoveredError) :
    List UniqueError :=
  let st := catalogState (errors.filter (fun e => e.service = service))
  st.2.filterMap (fun kv =>
    (lookupA st.1 kv.2.1).bind (fun op => lookupA op.errors kv.2.2))

/-- generateServiceJson in src/output/json-generator.ts.  The clock read
`new Date().toISOString()` for generatedAt is the `now` argument. -/
def generateServiceJson (service : String) (errors : List DiscoveredError)
    (now : String) : EnhancedErrorCatalog :=
  let serviceErrors := errors.filter (fun e => e.service = service)
  let st := catalogState serviceErrors
  let operations := st.1
  let uniqueErrorList := uniqueErrorsOf service errors
  let documentedCount := (uniqueErrorList.filter (fun e => isDocTruthy e.isDocumented)).length
  let undocumentedCount := (uniqueErrorList.filter (fun e => !isDocTruthy e.isDocumented)).length
  let coverage :=
    if uniqueErrorList.length > 0
    then toString (jsRoundPercent documentedCount uniqueErrorList.length) ++ "%"
    else "N/A"
  { service := service
    generatedAt := now
    summary :=
      { totalUniqueErrors := uniqueErrorList.length
        documentedErrors := documentedCount
        undocumentedErrors := undocumentedCount
        operationsCovered := operations.map (fun p => p.1)
        documentationCoverage := coverage }
    operations := operations }

/-! ## src/output/types-generator.ts -/

/-- capitalize in src/output/types-generator.ts. -/
def capitalize (s : String) : String :=
  match s.toList with
  | [] => ""
  | c :: cs => String.mk (c.toUpper :: cs)

/-- toTypeName in src/output/types-generator.ts. -/
def toTypeName (service operation : String) : String :=
  capitalize service ++ capitalize operation ++ "Error"

/-- The uniqueErrors filter of generateTypes: keep a record only at its
first occurrence of (service, operation, tag, code). -/
def dedupByTagCode (errors : List DiscoveredError) : List DiscoveredError :=
  errors.foldl
    (fun acc e =>
      if acc.any (fun e2 =>
          e2.service = e.service && e2.operation = e.operation &&
          e2.tag = e.tag && e2.code = e.code)
      then acc
      else acc ++ [e])
    []

/-- The service-to-operation-to-errors grouping of generateTypes, built in
first-seen order. -/
def groupErrors (uniqueErrors : List DiscoveredError) :
    List (String × List (String × List DiscoveredError)) :=
  uniqueErrors.foldl
    (fun grouped e =>
      let grouped :=
        match lookupA grouped e.service with
        | some _ => grouped
        | none => grouped ++ [(e.service, [])]
      updateA grouped e.service (fun serviceMap =>
        let serviceMap :=
          match lookupA serviceMap e.operation with
          | some _ => serviceMap
          | none => serviceMap ++ [(e.operation, [])]
        updateA serviceMap e.operation (fun opErrors => opErrors ++ [e])))
    []

/-- The variant line of one error in the generated union type:
`  | { _tag: "<tag>"; code: <code>; message: string }`. -/
def variantLine (e : DiscoveredError) : String :=
  "  | \x7b _tag: \"" ++ e.tag ++ "\"; code: " ++ toString e.code ++ "; message: string \x7d"

/-- The lines generateTypes emits for one operation group. -/
def operationLines (service : String) (p : String × List DiscoveredError) :
    List String :=
  if p.2.length = 0 then []
  else ("export type " ++ toTypeName service p.1 ++ " =")
    :: (p.2.map variantLine ++ [";", ""])

/-- The lines generateTypes emits for one service group. -/
def serviceLines (g : String × List (String × List DiscoveredError)) :
    List String :=
  ("// " ++ g.1 ++ " Errors") :: "" :: (g.2.flatMap (operationLines g.1))

/-- The fixed header lines of generateTypes; the third line embeds the
clock read `new Date().toISOString()`. -/
def typesHeaderLines (now : String) : List String :=
  ["/**", " * Auto-generated Cloudflare API error types.", " * Generated: " ++ now, " */", ""]

/-- All lines of generateTypes, header then grouped body. -/
def typesLines (errors : List DiscoveredError) (now : String) : List String :=
  typesHeaderLines now ++ (groupErrors (dedupByTagCode errors)).flatMap serviceLines

/-- generateTypes in src/output/types-generator.ts: the joined line list. -/
def generateTypes (errors : List DiscoveredError) (now : String) : String :=
  String.intercalate "\n" (typesLines errors now)

/-! ## Concrete scenarios used by witnesses and counterexamples -/

/-- A transport whose every attempt resolves to HTTP 429 with a rate-limit
envelope (provider code 6003). -/
def rateLimitTransport : Nat → FetchResult := fun _ =>
  .httpResponse 429 "Too Many Requests" (some (mkFailEnvelope [⟨6003, "Rate limited"⟩]))

/-- An operation over the trivial input object whose every call yields the
given result. -/
def constOperation (knownTags : List String)
    (res : Except CloudflareErrorType String) : Operation Unit :=
  { knownErrorTags := knownTags, run := fun _ => res }

/-- A registry exposing exactly one operation over the trivial input object. -/
def singleOpRegistry (service operation : String) (op : Operation Unit) :
    ToolRegistry Unit :=
  { getOperation := fun s o => if s = service && o = operation then some op else none
    parseJson := fun _ => none
    emptyObj := () }

/-- Two Ledger records agreeing on service, operation, category and
providerCode but carrying different tags. -/
def sharedTupleRecordA : DiscoveredError :=
  { service := "KV", operation := "writeValue", tag := "ValidationError"
    code := 1006, message := "invalid key", category := some "validation"
    discoveredAt := "2026-01-03T16:45:00.000Z" }

/-- Second record of the shared-tuple pair, differing only in tag, message
and timestamp. -/
def sharedTupleRecordB : DiscoveredError :=
  { sharedTupleRecordA with
    tag := "InvalidKey"
    message := "key too long"
    discoveredAt := "2026-01-03T16:45:01.000Z" }

/-- One record of the coverage example: tag `t`, documented flag `d`. -/
def coverageRecord (t : String) (d : Bool) : DiscoveredError :=
  { service := "KV", operation := "writeValue", tag := t, code := 1006
    message := "m", isDocumented := some d
    discoveredAt := "2026-01-03T16:45:00.000Z" }

/-- Five-record coverage example: two documented, three undocumented, all
with distinct tags. -/
def coverageExample : List DiscoveredError :=
  [coverageRecord "A" true, coverageRecord "B" true, coverageRecord "C" false,
   coverageRecord "D" false, coverageRecord "E" false]

/-! ## Shared lemmas -/

/-- A filter and its negation partition the length of a list. -/
theorem length_filter_split {α : Type} (p : α → Bool) (l : List α) :
    (l.filter p).length + (l.filter (fun x => !p x)).length = l.length := by
  induction l with
  | nil => rfl
  | cons x xs ih => cases h : p x <;> simp [List.filter_cons, h] <;> omega

/-- Every failure of the fetch step is an HttpError, which the rate-limit
retry predicate rejects. -/
theorem fetchStep_error_not_rate_limit (transport : Nat → FetchResult) :
    ∀ i e, fetchStep transport i = .error e → isRateLimitTag e = false := by
  intro i e h
  unfold fetchStep at h
  cases htr : transport i with
  | networkFailure msg =>
      rw [htr] at h
      cases h
      rfl
  | httpResponse status statusText body =>
      rw [htr] at h
      cases h

/-- When the retry predicate rejects every failure the step can produce, the
retried step executes exactly once. -/
theorem retryWhileInput_pred_false
    (pred : CloudflareErrorType → Bool)
    (step : Nat → Except CloudflareErrorType HttpResponseValue)
    (h : ∀ i e, step i = .error e → pred e = false) (r i : Nat) :
    (retryWhileInput pred step r i).2 = i + 1 := by
  unfold retryWhileInput
  cases hs : step i with
  | ok v => rfl
  | error e => simp [h i e hs]

/-- A successful record lookup comes from a pair of the list whose key is
the one looked up. -/
theorem lookupA_mem {α : Type} {l : List (String × α)} {k : String} {v : α}
    (h : lookupA l k = some v) : ∃ p, p ∈ l ∧ p.1 = k ∧ p.2 = v := by
  unfold lookupA at h
  cases hf : l.find? (fun p => p.1 = k) with
  | none => rw [hf] at h; cases h
  | some p =>
      rw [hf] at h
      cases h
      have hm := List.mem_of_find?_eq_some hf
      have hp := List.find?_some hf
      simp only [decide_eq_true_eq] at hp
      exact ⟨p, hm, hp, rfl⟩

/-- Every pair of an in-place update is an original pair, either untouched
or with the update applied at the key. -/
theorem mem_updateA {α : Type} {l : List (String × α)} {k : String} {f : α → α}
    {p : String × α} (h : p ∈ updateA l k f) :
    ∃ q, q ∈ l ∧ (p = q ∨ p = (q.1, f q.2)) := by
  unfold updateA at h
  rcases List.mem_map.mp h with ⟨q, hq, he⟩
  by_cases hk : q.1 = k
  · rw [if_pos hk] at he
    exact ⟨q, hq, Or.inr he.symm⟩
  · rw [if_neg hk] at he
    exact ⟨q, hq, Or.inl he.symm⟩

/-- bumpEntry always increments occurrences by one. -/
theorem bumpEntry_occurrences (error : DiscoveredError) (u : UniqueError) :
    (bumpEntry error u).occurrences = u.occurrences + 1 := by
  unfold bumpEntry
  cases error.triggerInput with
  | none => rfl
  | some inputStr => dsimp only; split <;> rfl

/-- bumpEntry never changes the documented flag. -/
theorem bumpEntry_isDocumented (error : DiscoveredError) (u : UniqueError) :
    (bumpEntry error u).isDocumented = u.isDocumented := by
  unfold bumpEntry
  cases error.triggerInput with
  | none => rfl
  | some inputStr => dsimp only; split <;> rfl

/-- Without a trigger input, bumpEntry leaves triggerExamples unchanged. -/
theorem bumpEntry_triggers_none (error : DiscoveredError) (u : UniqueError)
    (h : error.triggerInput = none) :
    (bumpEntry error u).triggerExamples = u.triggerExamples := by
  unfold bumpEntry
  rw [h]

/-- bumpEntry keeps triggerExamples at no more than three pairwise distinct
elements. -/
theorem bumpEntry_triggers_ok (error : DiscoveredError) (u : UniqueError)
    (h : u.triggerExamples.length ≤ 3 ∧ u.triggerExamples.Nodup) :
    (bumpEntry error u).triggerExamples.length ≤ 3 ∧
      (bumpEntry error u).triggerExamples.Nodup := by
  unfold bumpEntry
  cases error.triggerInput with
  | none => exact h
  | some inputStr =>
      dsimp only
      split
      · rename_i hcond
        simp at hcond
        constructor
        · simp only [List.length_append, List.length_singleton]
          omega
        · rw [List.nodup_append]
          exact ⟨h.2, List.nodup_singleton _, by simpa using hcond.2⟩
      · exact h

/-- Provenance of the entries of foldOpRecord: every entry is an original
entry, a bumped original entry, or the (possibly bumped) fresh entry of the
current tag. -/
theorem foldOpRecord_entries_cases (error : DiscoveredError) (op : OperationErrors)
    {q : String × UniqueError} (hq : q ∈ (foldOpRecord error op).errors) :
    (∃ p, p ∈ op.errors ∧ (q = p ∨ q = (p.1, bumpEntry error p.2))) ∨
    q = (error.tag, newEntry error) ∨
    q = (error.tag, bumpEntry error (newEntry error)) := by
  unfold foldOpRecord at hq
  dsimp only at hq
  cases hl : lookupA op.errors error.tag with
  | some u0 =>
      rw [hl] at hq
      rcases mem_updateA hq with ⟨p, hp, hcase⟩
      exact Or.inl ⟨p, hp, hcase⟩
  | none =>
      rw [hl] at hq
      rcases mem_updateA hq with ⟨p, hp, hcase⟩
      rcases List.mem_append.mp hp with hp2 | hp2
      · exact Or.inl ⟨p, hp2, hcase⟩
      · have hpe : p = (error.tag, newEntry error) := by simpa using hp2
        subst hpe
        rcases hcase with hc | hc
        · exact Or.inr (Or.inl hc)
        · exact Or.inr (Or.inr hc)

/-- When the record is not documented (undefined or false flag), foldOpRecord
leaves the documentedErrors list unchanged. -/
theorem foldOpRecord_doc_of_undoc (error : DiscoveredError) (op : OperationErrors)
    (h : isDocTruthy error.isDocumented = false) :
    (foldOpRecord error op).documentedErrors = op.documentedErrors := by
  unfold foldOpRecord
  dsimp only
  rw [h]
  rfl

/-- Provenance of the operation entries of recordIntoOperations: every pair
is an original pair, the folded image of an original pair, or the (possibly
folded) freshly initialized empty entry of the current operation. -/
theorem recordIntoOperations_cases (ops : List (String × OperationErrors))
    (error : DiscoveredError) {p : String × OperationErrors}
    (hp : p ∈ recordIntoOperations ops error) :
    (∃ q, q ∈ ops ∧ (p = q ∨ p = (q.1, foldOpRecord error q.2))) ∨
    p = (error.operation, { documentedErrors := [], errors := [] }) ∨
    p = (error.operation,
      foldOpRecord error { documentedErrors := [], errors := [] }) := by
  unfold recordIntoOperations at hp
  dsimp only at hp
  cases hl : lookupA ops error.operation with
  | some op0 =>
      rw [hl] at hp
      rcases mem_updateA hp with ⟨q, hq, hcase⟩
      exact Or.inl ⟨q, hq, hcase⟩
  | none =>
      rw [hl] at hp
      rcases mem_updateA hp with ⟨q, hq, hcase⟩
      rcases List.mem_append.mp hq with hq2 | hq2
      · exact Or.inl ⟨q, hq2, hcase⟩
      · have hqe : q = (error.operation, { documentedErrors := [], errors := [] }) := by
          simpa using hq2
        subst hqe
        rcases hcase with hc | hc
        · exact Or.inr (Or.inl hc)
        · exact Or.inr (Or.inr hc)

/-- Invariance of a property of the operations record along the
generateServiceJson loop. -/
theorem foldl_catStep_inv (P : List (String × OperationErrors) → Prop)
    (Q : DiscoveredError → Prop)
    (hstep : ∀ ops r, P ops → Q r → P (recordIntoOperations ops r)) :
    ∀ (l : List DiscoveredError)
      (st : List (String × OperationErrors) × List (String × (String × String))),
      P st.1 → (∀ r ∈ l, Q r) → P ((l.foldl catStep st).1) := by
  intro l
  induction l with
  | nil => intro st h _; exact h
  | cons r rs ih =>
      intro st h hq
      exact ih (catStep st r) (hstep st.1 r h (hq r (by simp)))
        (fun x hx => hq x (by simp [hx]))

/-- Every entry of the catalog built by the loop keeps at most three
pairwise distinct trigger examples. -/
theorem catalogState_triggers_ok (l : List DiscoveredError) :
    ∀ p ∈ (catalogState l).1, ∀ q ∈ p.2.errors,
      q.2.triggerExamples.length ≤ 3 ∧ q.2.triggerExamples.Nodup := by
  have hstep : ∀ ops r,
      (∀ p ∈ ops, ∀ q ∈ p.2.errors,
        q.2.triggerExamples.length ≤ 3 ∧ q.2.triggerExamples.Nodup) → True →
      (∀ p ∈ recordIntoOperations ops r, ∀ q ∈ p.2.errors,
        q.2.triggerExamples.length ≤ 3 ∧ q.2.triggerExamples.Nodup) := by
    intro ops r hP _ p hp q hq
    rcases recordIntoOperations_cases ops r hp with ⟨q0, hq0, hc | hc⟩ | hfresh | hfresh
    · rw [hc] at hq
      exact hP q0 hq0 q hq
    · rw [hc] at hq
      dsimp only at hq
      rcases foldOpRecord_entries_cases r q0.2 hq with ⟨p0, hp0, hc2 | hc2⟩ | hc2 | hc2
      · rw [hc2]
        exact hP q0 hq0 p0 hp0
      · rw [hc2]
        exact bumpEntry_triggers_ok r p0.2 (hP q0 hq0 p0 hp0)
      · rw [hc2]
        exact ⟨by simp [newEntry], by simp [newEntry]⟩
      · rw [hc2]
        exact bumpEntry_triggers_ok r (newEntry r)
          ⟨by simp [newEntry], by simp [newEntry]⟩
    · rw [hfresh] at hq
      simp at hq
    · rw [hfresh] at hq
      dsimp only at hq
      rcases foldOpRecord_entries_cases r _ hq with ⟨p0, hp0, _⟩ | hc2 | hc2
      · simp at hp0
      · rw [hc2]
        exact ⟨by simp [newEntry], by simp [newEntry]⟩
      · rw [hc2]
        exact bumpEntry_triggers_ok r (newEntry r)
          ⟨by simp [newEntry], by simp [newEntry]⟩
  exact foldl_catStep_inv _ (fun _ => True) hstep l ([], [])
    (by intro p hp; cases hp) (fun _ _ => trivial)

/-- When every record carries an undefined isDocumented flag and no trigger
input, every operation entry of the catalog loop has an empty
documentedErrors list and every error entry has an undefined documented
flag and no trigger examples. -/
theorem catalogState_undocumented (l : List DiscoveredError)
    (hl : ∀ r ∈ l, r.isDocumented = none ∧ r.triggerInput = none) :
    ∀ p ∈ (catalogState l).1, p.2.documentedErrors = [] ∧
      ∀ q ∈ p.2.errors, q.2.isDocumented = none ∧ q.2.triggerExamples = [] := by
  have hstep : ∀ ops r,
      (∀ p ∈ ops, p.2.documentedErrors = [] ∧
        ∀ q ∈ p.2.errors, q.2.isDocumented = none ∧ q.2.triggerExamples = []) →
      (r.isDocumented = none ∧ r.triggerInput = none) →
      (∀ p ∈ recordIntoOperations ops r, p.2.documentedErrors = [] ∧
        ∀ q ∈ p.2.errors, q.2.isDocumented = none ∧ q.2.triggerExamples = []) := by
    intro ops r hP hr p hp
    have hdoc : isDocTruthy r.isDocumented = false := by rw [hr.1]; rfl
    have hfold : ∀ op : OperationErrors,
        (op.documentedErrors = [] ∧
          ∀ q ∈ op.errors, q.2.isDocumented = none ∧ q.2.triggerExamples = []) →
        ((foldOpRecord r op).documentedErrors = [] ∧
          ∀ q ∈ (foldOpRecord r op).errors,
            q.2.isDocumented = none ∧ q.2.triggerExamples = []) := by
      intro op hop
      refine ⟨by rw [foldOpRecord_doc_of_undoc r op hdoc]; exact hop.1, ?_⟩
      intro q hq
      rcases foldOpRecord_entries_cases r op hq with ⟨p0, hp0, hc | hc⟩ | hc | hc
      · rw [hc]
        exact hop.2 p0 hp0
      · rw [hc]
        dsimp only
        rw [bumpEntry_isDocumented, bumpEntry_triggers_none r p0.2 hr.2]
        exact hop.2 p0 hp0
      · rw [hc]
        exact ⟨by simp [newEntry, hr.1], by simp [newEntry]⟩
      · rw [hc]
        dsimp only
        rw [bumpEntry_isDocumented, bumpEntry_triggers_none r _ hr.2]
        exact ⟨by simp [newEntry, hr.1], by simp [newEntry]⟩
    rcases recordIntoOperations_cases ops r hp with ⟨q0, hq0, hc | hc⟩ | hfresh | hfresh
    · rw [hc]
      exact hP q0 hq0
    · rw [hc]
      exact hfold q0.2 (hP q0 hq0)
    · rw [hfresh]
      exact ⟨rfl, by intro q hq; simp at hq⟩
    · rw [hfresh]
      exact hfold _ ⟨rfl, by intro q hq; simp at hq⟩
  exact foldl_catStep_inv _ _ hstep l ([], []) (by intro p hp; cases hp) hl

/-- Every element of the uniqueErrorList is an entry value of the final
operations record. -/
theorem mem_uniqueErrorsOf {service : String} {errors : List DiscoveredError}
    {u : UniqueError} (hu : u ∈ uniqueErrorsOf service errors) :
    ∃ p q, p ∈ (catalogState (errors.filter (fun e => e.service = service))).1 ∧
      q ∈ p.2.errors ∧ q.2 = u := by
  unfold uniqueErrorsOf at hu
  rcases List.mem_filterMap.mp hu with ⟨kv, _, hf⟩
  rcases Option.bind_eq_some.mp hf with ⟨opErrs, h1, h2⟩
  rcases lookupA_mem h1 with ⟨p, hp, _, hv⟩
  rcases lookupA_mem h2 with ⟨q, hq, _, hv2⟩
  rw [← hv] at hq
  exact ⟨p, q, hp, hq, hv2⟩

/-- Lookup in the empty record. -/
theorem lookupA_nil {α : Type} (k : String) :
    lookupA ([] : List (String × α)) k = none := rfl

/-- Lookup in a one-entry record at its key. -/
theorem lookupA_single {α : Type} (k : String) (v : α) :
    lookupA [(k, v)] k = some v := by
  simp [lookupA, List.find?]

/-- In-place update of a one-entry record at its key. -/
theorem updateA_single {α : Type} (k : String) (v : α) (f : α → α) :
    updateA [(k, v)] k f = [(k, f v)] := by
  simp [updateA]

/-- Folding a record into the fresh empty operation entry creates the single
bumped fresh entry of its tag. -/
theorem foldOpRecord_empty (r : DiscoveredError) :
    ∃ d1, foldOpRecord r { documentedErrors := [], errors := [] } =
      (⟨d1, [(r.tag, bumpEntry r (newEntry r))]⟩ : OperationErrors) := by
  unfold foldOpRecord
  dsimp only
  rw [lookupA_nil]
  dsimp only
  simp only [List.nil_append]
  rw [updateA_single]
  exact ⟨_, rfl⟩

/-- Folding a record into an operation entry holding a single entry of the
same tag bumps that entry in place. -/
theorem foldOpRecord_single (r : DiscoveredError) (d : List String)
    (u : UniqueError) :
    ∃ d2, foldOpRecord r ⟨d, [(r.tag, u)]⟩ =
      (⟨d2, [(r.tag, bumpEntry r u)]⟩ : OperationErrors) := by
  unfold foldOpRecord
  dsimp only
  rw [lookupA_single]
  dsimp only
  rw [updateA_single]
  exact ⟨_, rfl⟩

/-- The first record creates the one-operation one-entry record with the
bumped fresh entry. -/
theorem recordIntoOperations_nil (r : DiscoveredError) :
    ∃ d1, recordIntoOperations [] r =
      [(r.operation, (⟨d1, [(r.tag, bumpEntry r (newEntry r))]⟩ : OperationErrors))] := by
  obtain ⟨d1, hf⟩ := foldOpRecord_empty r
  refine ⟨d1, ?_⟩
  unfold recordIntoOperations
  dsimp only
  rw [lookupA_nil]
  dsimp only
  simp only [List.nil_append]
  rw [updateA_single, hf]

/-- A record whose operation and tag match the single existing entry bumps
that entry in place. -/
theorem recordIntoOperations_single (r : DiscoveredError) (d : List String)
    (u : UniqueError) :
    ∃ d2, recordIntoOperations
        [(r.operation, (⟨d, [(r.tag, u)]⟩ : OperationErrors))] r =
      [(r.operation, (⟨d2, [(r.tag, bumpEntry r u)]⟩ : OperationErrors))] := by
  obtain ⟨d2, hf⟩ := foldOpRecord_single r d u
  refine ⟨d2, ?_⟩
  unfold recordIntoOperations
  dsimp only
  rw [lookupA_single]
  dsimp only
  rw [updateA_single, hf]

/-- Running the catalog loop over records all of one operation and one tag,
from a state holding exactly that single entry, keeps the single entry and
adds the number of records to its occurrence count. -/
theorem catalogState_shared_count :
    ∀ (l : List DiscoveredError) (o t : String)
      (st : List (String × OperationErrors) × List (String × (String × String)))
      (d : List String) (u : UniqueError),
      (∀ r ∈ l, r.operation = o ∧ r.tag = t) →
      st.1 = [(o, (⟨d, [(t, u)]⟩ : OperationErrors))] →
      ∃ d2 u2, (l.foldl catStep st).1 =
          [(o, (⟨d2, [(t, u2)]⟩ : OperationErrors))] ∧
        u2.occurrences = u.occurrences + l.length := by
  intro l
  induction l with
  | nil =>
      intro o t st d u _ hst
      exact ⟨d, u, hst, by simp⟩
  | cons r rs ih =>
      intro o t st d u hl hst
      have hro : r.operation = o := (hl r (by simp)).1
      have hrt : r.tag = t := (hl r (by simp)).2
      obtain ⟨d2, hone⟩ := recordIntoOperations_single r d u
      rw [hro, hrt] at hone
      have hstep1 : (catStep st r).1 =
          [(o, (⟨d2, [(t, bumpEntry r u)]⟩ : OperationErrors))] := by
        show recordIntoOperations st.1 r = _
        rw [hst]
        exact hone
      obtain ⟨d3, u3, hrest, hocc⟩ := ih o t (catStep st r) d2 (bumpEntry r u)
        (fun x hx => hl x (by simp [hx])) hstep1
      refine ⟨d3, u3, ?_, ?_⟩
      · rw [List.foldl_cons]
        exact hrest
      · rw [hocc, bumpEntry_occurrences]
        simp
        omega

/-! ## Claim theorems -/

/-- C1: the spec claims a request whose transport failure is a rate-limit
condition is retried with exponential backoff up to the configured attempt
cap; in the code the retry combinator wraps only the fetch promise, whose
failures are always HttpError (network rejection), so the RateLimitError
retry predicate never matches: every makeRequest call performs exactly one
fetch attempt, and a 429 rate-limit response is surfaced immediately as a
RateLimitError after that single attempt, contradicting the retry-for-rate-
limits behaviour documented in the header of src/cloudflare/client.ts. -/
theorem c1_rate_limit_never_retried :
    (∀ (config : CloudflareConfig) (transport : Nat → FetchResult),
        (makeRequestWithCount config transport).2 = 1) ∧
    makeRequestWithCount defaultCloudflareConfig rateLimitTransport =
      (.error (.RateLimitError 6003 "Rate limited" (some 429)), 1) := by
  constructor
  · intro config transport
    exact retryWhileInput_pred_false isRateLimitTag (fetchStep transport)
      (fetchStep_error_not_rate_limit transport) config.retryAttempts 0
  · rfl

/-- C4 counterexample: code 10000 is mapped to NotFoundError by
COMMON_ERROR_CODES, so an envelope with first error code 10000 under HTTP
status 401 classifies as NotFound, not as Authentication as the claim
states. -/
theorem c4_counterexample :
    parseCloudflareError (mkFailEnvelope [⟨10000, "Authentication error"⟩]) (some 401) =
      .NotFoundError 10000 "Authentication error" (some 401) ∧
    categoryOf (parseCloudflareError
      (mkFailEnvelope [⟨10000, "Authentication error"⟩]) (some 401)) ≠
      Category.Authentication := by
  exact ⟨rfl, by decide⟩

/-- C4 (amended): for every envelope with success=false and a non-empty
errors list whose first code is in the numeric-code table, classification
returns that table entry applied to the code, message and status, regardless
of httpStatus; in particular code 10000 with status 401 classifies as
NotFound by the code table (10000 maps to NotFound, not Authentication), and
code 0 with status 404 classifies as NotFound by the status fallback. -/
theorem c4_code_table_precedence :
    (∀ (code : Nat) (message : String) (rest : List CloudflareApiError)
        (httpStatus : Option Nat)
        (ErrorClass : Nat → String → Option Nat → CloudflareErrorType),
        COMMON_ERROR_CODES code = some ErrorClass →
        parseCloudflareError (mkFailEnvelope (⟨code, message⟩ :: rest)) httpStatus =
          ErrorClass code message httpStatus) ∧
    (∀ message : String,
        parseCloudflareError (mkFailEnvelope [⟨10000, message⟩]) (some 401) =
          .NotFoundError 10000 message (some 401)) ∧
    (∀ message : String,
        parseCloudflareError (mkFailEnvelope [⟨0, message⟩]) (some 404) =
          .NotFoundError 0 message (some 404)) := by
  refine ⟨?_, fun _ => rfl, fun _ => rfl⟩
  intro code message rest httpStatus ErrorClass h
  simp [parseCloudflareError, mkFailEnvelope, h]

/-- C4 witness: the code table at 9103 is AuthenticationError, and the
classifier follows it even under HTTP status 404. -/
theorem c4_code_table_precedence_witness :
    COMMON_ERROR_CODES 9103 = some CloudflareErrorType.AuthenticationError ∧
    parseCloudflareError (mkFailEnvelope [⟨9103, "invalid token"⟩]) (some 404) =
      CloudflareErrorType.AuthenticationError 9103 "invalid token" (some 404) :=
  ⟨rfl, c4_code_table_precedence.1 9103 "invalid token" [] (some 404) _ rfl⟩

/-- C6 counterexample: the fixed message of the empty-errors branch is
"Unknown error: API returned success=false but no error details", not the
sentinel "no error details provided" quoted by the claim. -/
theorem c6_counterexample :
    messageOf (parseCloudflareError (mkFailEnvelope []) (some 500)) ≠
      "no error details provided" ∧
    messageOf (parseCloudflareError (mkFailEnvelope []) (some 500)) =
      "Unknown error: API returned success=false but no error details" := by
  exact ⟨by decide, rfl⟩

/-- C6 (amended): for every envelope with success=false and an empty errors
list, classification returns the generic CloudflareError of category
Unknown with providerCode 0 and the fixed message "Unknown error: API
returned success=false but no error details", independent of httpStatus
(and of the messages and result fields). -/
theorem c6_empty_errors_unknown :
    ∀ (httpStatus : Option Nat) (messages : List String) (result : Option String),
      parseCloudflareError
          { success := false, errors := [], messages := messages, result := result }
          httpStatus =
        .CloudflareError 0
          "Unknown error: API returned success=false but no error details" httpStatus ∧
      categoryOf (parseCloudflareError
          { success := false, errors := [], messages := messages, result := result }
          httpStatus) = Category.Unknown ∧
      codeOf (parseCloudflareError
          { success := false, errors := [], messages := messages, result := result }
          httpStatus) = 0 :=
  fun _ _ _ => ⟨rfl, rfl, rfl⟩

/-- jsRoundPercent is exactly Mathlib round (round half up, as Math.round)
of the exact percentage. -/
theorem jsRoundPercent_eq_round (num den : Nat) (hden : 0 < den) :
    (jsRoundPercent num den : ℤ) = round ((num : ℚ) * 100 / den) := by
  have hden0 : (den : ℚ) ≠ 0 := Nat.cast_ne_zero.mpr hden.ne'
  rw [round_eq]
  have hx : (num : ℚ) * 100 / den + 1 / 2 =
      ((200 * num + den : ℕ) : ℚ) / ((2 * den : ℕ) : ℚ) := by
    push_cast
    field_simp
    ring
  rw [hx, ← Int.natCast_floor_eq_floor (by positivity), Nat.floor_div_eq_div]
  simp [jsRoundPercent]

/-- C8 counterexample: the exporters embed the generation time
(`new Date().toISOString()`) in their output, so two calls on the same list
of discovered errors made at different instants produce different
type-definition text and different JSON catalogs. -/
theorem c8_counterexample :
    generateTypes [] "2026-01-03T16:45:14.773Z" ≠
      generateTypes [] "2026-01-03T16:46:18.346Z" ∧
    generateServiceJson "KV" [] "2026-01-03T16:45:14.773Z" ≠
      generateServiceJson "KV" [] "2026-01-03T16:46:18.346Z" := by
  constructor <;> decide

/-- C8 (amended): the export is deterministic given the Ledger snapshot and
the generation timestamp, and the timestamp reaches the output only through
the generatedAt field of the JSON catalog and the `Generated:` header line
(index 2) of the type-definition text: the catalog service, summary and
operations components, and all type-definition lines except that header
line, are functions of the error list alone. -/
theorem c8_deterministic_modulo_timestamp :
    ∀ (service : String) (errors : List DiscoveredError) (now1 now2 : String),
      (generateServiceJson service errors now1).service =
        (generateServiceJson service errors now2).service ∧
      (generateServiceJson service errors now1).summary =
        (generateServiceJson service errors now2).summary ∧
      (generateServiceJson service errors now1).operations =
        (generateServiceJson service errors now2).operations ∧
      (typesLines errors now1).eraseIdx 2 = (typesLines errors now2).eraseIdx 2 ∧
      generateTypes errors now1 = String.intercalate "\n" (typesLines errors now1) :=
  fun _ _ _ _ => ⟨rfl, rfl, rfl, rfl, rfl⟩

/-- C9: the service summary renders documentation coverage as
round(documented / total * 100) followed by "%", with round half up exactly
as Math.round; when the unique-error list is empty the coverage is the
sentinel "N/A" with no division performed; on the concrete example with 2
documented and 3 undocumented entries it reports total 5 and "40%". -/
theorem c9_coverage_math :
    (∀ (service : String) (errors : List DiscoveredError) (now : String),
        (generateServiceJson service errors now).summary.totalUniqueErrors ≠ 0 →
        (generateServiceJson service errors now).summary.documentationCoverage =
          toString ((round (((generateServiceJson service errors now).summary.documentedErrors : ℚ) * 100 /
            ((generateServiceJson service errors now).summary.totalUniqueErrors : ℚ))).toNat) ++ "%") ∧
    (∀ (service : String) (errors : List DiscoveredError) (now : String),
        (generateServiceJson service errors now).summary.totalUniqueErrors = 0 →
        (generateServiceJson service errors now).summary.documentationCoverage = "N/A") ∧
    (generateServiceJson "KV" coverageExample "t").summary.documentedErrors = 2 ∧
    (generateServiceJson "KV" coverageExample "t").summary.undocumentedErrors = 3 ∧
    (generateServiceJson "KV" coverageExample "t").summary.totalUniqueErrors = 5 ∧
    (generateServiceJson "KV" coverageExample "t").summary.documentationCoverage = "40%" ∧
    (generateServiceJson "KV" [] "t").summary.documentationCoverage = "N/A" := by
  have covdef : ∀ (service : String) (errors : List DiscoveredError) (now : String),
      (generateServiceJson service errors now).summary.documentationCoverage =
        if 0 < (generateServiceJson service errors now).summary.totalUniqueErrors
        then toString (jsRoundPercent
          (generateServiceJson service errors now).summary.documentedErrors
          (generateServiceJson service errors now).summary.totalUniqueErrors) ++ "%"
        else "N/A" := fun _ _ _ => rfl
  refine ⟨?_, ?_, by decide, by decide, by decide, by decide, by decide⟩
  · intro service errors now htot
    have h := jsRoundPercent_eq_round
      (generateServiceJson service errors now).summary.documentedErrors
      (generateServiceJson service errors now).summary.totalUniqueErrors
      (Nat.pos_of_ne_zero htot)
    have h2 : jsRoundPercent
        (generateServiceJson service errors now).summary.documentedErrors
        (generateServiceJson service errors now).summary.totalUniqueErrors =
        (round (((generateServiceJson service errors now).summary.documentedErrors : ℚ) * 100 /
          ((generateServiceJson service errors now).summary.totalUniqueErrors : ℚ))).toNat := by
      rw [← h]
      exact (Int.toNat_natCast _).symm
    rw [covdef, if_pos (Nat.pos_of_ne_zero htot), h2]
  · intro service errors now htot
    rw [covdef, if_neg]
    omega

/-- C9 witness: the coverage formula instantiated on the five-record
example: total 5, documented 2, coverage toString of round(2 * 100 / 5)
followed by the percent sign, which evaluates to "40%". -/
theorem c9_coverage_math_witness :
    (generateServiceJson "KV" coverageExample "t").summary.totalUniqueErrors ≠ 0 ∧
    (generateServiceJson "KV" coverageExample "t").summary.documentationCoverage =
      toString ((round (((generateServiceJson "KV" coverageExample "t").summary.documentedErrors : ℚ) * 100 /
        ((generateServiceJson "KV" coverageExample "t").summary.totalUniqueErrors : ℚ))).toNat) ++ "%" :=
  ⟨by decide, c9_coverage_math.1 "KV" coverageExample "t" (by decide)⟩

/-- C10: in every summary generateServiceJson produces, the documented and
undocumented counts partition the unique-error list, so
totalUniqueErrors = documentedErrors + undocumentedErrors. -/
theorem c10_summary_partition :
    ∀ (service : String) (errors : List DiscoveredError) (now : String),
      (generateServiceJson service errors now).summary.totalUniqueErrors =
        (generateServiceJson service errors now).summary.documentedErrors +
        (generateServiceJson service errors now).summary.undocumentedErrors := by
  intro service errors now
  exact (length_filter_split (fun e : UniqueError => isDocTruthy e.isDocumented) _).symm

/-- The catchAll handler appends exactly one record to the Ledger and its
outcome is one of the two failed-probe outcomes. -/
theorem handleOpFailure_spec {Obj : Type} (op : Operation Obj) (now : String)
    (ledger : List DiscoveredError) (service operation : String)
    (err : CloudflareErrorType) :
    (handleOpFailure op now ledger service operation err).2 =
      ledger ++ [{ service := service, operation := operation, tag := tagOf err,
                   code := codeOf err, message := messageOf err, discoveredAt := now }] ∧
    (handleOpFailure op now ledger service operation err).1 =
      (if !(op.knownErrorTags.contains (tagOf err))
        then CallOutcome.newErrorDiscovered (tagOf err) (messageOf err)
        else CallOutcome.knownError (tagOf err) (messageOf err)) ∧
    isFailedProbe (handleOpFailure op now ledger service operation err).1 = true := by
  cases hnew : op.knownErrorTags.contains (tagOf err) with
  | false =>
      have h2 : tagOf err ∉ op.knownErrorTags := by simpa using hnew
      simp [handleOpFailure, recordError, isFailedProbe, h2]
  | true =>
      have h2 : tagOf err ∈ op.knownErrorTags := by simpa using hnew
      simp [handleOpFailure, recordError, isFailedProbe, h2]

/-- C7: each CallApi call mutates the discoveredErrors Ledger exactly once
when the probe failed (the operation was executed and its error caught:
outcomes newErrorDiscovered and knownError) and not at all otherwise
(successful probe, unresolved operation, or invalid input JSON). -/
theorem c7_one_mutation_per_failed_probe :
    ∀ {Obj : Type} (reg : ToolRegistry Obj) (now : String)
      (ledger : List DiscoveredError) (service operation input : String),
      (isFailedProbe (CallApi reg now ledger service operation input).1 = true →
        ∃ record : DiscoveredError,
          (CallApi reg now ledger service operation input).2 = ledger ++ [record]) ∧
      (isFailedProbe (CallApi reg now ledger service operation input).1 = false →
        (CallApi reg now ledger service operation input).2 = ledger) := by
  intro Obj reg now ledger service operation input
  unfold CallApi
  cases hop : reg.getOperation service operation with
  | none => exact ⟨fun h => by simp [isFailedProbe] at h, fun _ => rfl⟩
  | some op =>
      dsimp only
      cases hp : parseInputString reg input with
      | none => exact ⟨fun h => by simp [isFailedProbe] at h, fun _ => rfl⟩
      | some parsed =>
          dsimp only
          cases hr : op.run parsed with
          | ok response => exact ⟨fun h => by simp [isFailedProbe] at h, fun _ => rfl⟩
          | error err =>
              dsimp only
              refine ⟨fun _ => ⟨_, (handleOpFailure_spec op now ledger service operation err).1⟩,
                fun h => ?_⟩
              rw [(handleOpFailure_spec op now ledger service operation err).2.2] at h
              cases h

/-- C7 witness: a failing probe appends one record and a successful probe
appends none, on concrete single-operation registries. -/
theorem c7_one_mutation_per_failed_probe_witness :
    (∃ record : DiscoveredError,
      (CallApi (singleOpRegistry "KV" "createNamespace"
          (constOperation ["ValidationError"]
            (.error (.ValidationError 1006 "invalid title" (some 400)))))
        "t0" [] "KV" "createNamespace" "\x7b\x7d").2 = [] ++ [record]) ∧
    (CallApi (singleOpRegistry "KV" "listNamespaces"
        (constOperation [] (.ok "namespace list")))
      "t0" [] "KV" "listNamespaces" "").2 = [] :=
  ⟨(c7_one_mutation_per_failed_probe _ "t0" [] "KV" "createNamespace" "\x7b\x7d").1 (by decide),
   (c7_one_mutation_per_failed_probe _ "t0" [] "KV" "listNamespaces" "").2 (by decide)⟩

/-- C2 counterexample: a probe whose operation fails with the transport
error HttpError does mutate the Ledger: the record with tag "HttpError" and
code 0 is appended to discoveredErrors, and the failure is surfaced through
the same discovered-error outcome as an API error (NEW ERROR DISCOVERED),
not as a distinct request-failed outcome. -/
theorem c2_counterexample :
    (CallApi (singleOpRegistry "KV" "listNamespaces"
        (constOperation ["AuthenticationError"]
          (.error (.HttpError 0 "Network Error" "connection reset"))))
      "t0" [] "KV" "listNamespaces" "\x7b\x7d").2 =
      [{ service := "KV", operation := "listNamespaces", tag := "HttpError",
         code := 0, message := "connection reset", discoveredAt := "t0" }] ∧
    (CallApi (singleOpRegistry "KV" "listNamespaces"
        (constOperation ["AuthenticationError"]
          (.error (.HttpError 0 "Network Error" "connection reset"))))
      "t0" [] "KV" "listNamespaces" "\x7b\x7d").1 =
      .newErrorDiscovered "HttpError" "connection reset" := by
  constructor <;> decide

/-- C2 (amended): a probe whose operation fails with a transport-level error
(HttpError or ParseError) is treated like any other failure: exactly one
record with that tag and code 0 is appended to the Ledger, and the outcome
is one of the discovered-error outcomes (newErrorDiscovered when the tag is
not among the known error tags of the operation, knownError otherwise) — no
distinct request-failed outcome exists. -/
theorem c2_transport_errors_recorded :
    ∀ {Obj : Type} (reg : ToolRegistry Obj) (now : String)
      (ledger : List DiscoveredError) (service operation input : String)
      (op : Operation Obj) (parsed : Obj) (err : CloudflareErrorType),
      reg.getOperation service operation = some op →
      parseInputString reg input = some parsed →
      op.run parsed = .error err →
      (tagOf err = "HttpError" ∨ tagOf err = "ParseError") →
      (CallApi reg now ledger service operation input).2 =
        ledger ++ [{ service := service, operation := operation, tag := tagOf err,
                     code := 0, message := messageOf err, discoveredAt := now }] ∧
      (CallApi reg now ledger service operation input).1 =
        (if !(op.knownErrorTags.contains (tagOf err))
          then CallOutcome.newErrorDiscovered (tagOf err) (messageOf err)
          else CallOutcome.knownError (tagOf err) (messageOf err)) := by
  intro Obj reg now ledger service operation input op parsed err hop hparse hrun htransport
  have hcode : codeOf err = 0 := by
    cases err <;> simp [tagOf] at htransport <;> rfl
  have hcall : CallApi reg now ledger service operation input =
      handleOpFailure op now ledger service operation err := by
    unfold CallApi
    rw [hop]
    dsimp only
    rw [hparse]
    dsimp only
    rw [hrun]
  rw [hcall, ← hcode]
  exact ⟨(handleOpFailure_spec op now ledger service operation err).1,
    (handleOpFailure_spec op now ledger service operation err).2.1⟩

/-- C2 witness: the amended statement instantiated on a concrete probe whose
operation fails with a ParseError (non-JSON body). -/
theorem c2_transport_errors_recorded_witness :
    (CallApi (singleOpRegistry "D1" "executeQuery"
        (constOperation ["NotFoundError"]
          (.error (.ParseError "Failed to parse response body"))))
      "t1" [] "D1" "executeQuery" "").2 =
      [] ++ [{ service := "D1", operation := "executeQuery", tag := "ParseError",
               code := 0, message := "Failed to parse response body",
               discoveredAt := "t1" }] :=
  (c2_transport_errors_recorded _ "t1" [] "D1" "executeQuery" ""
    (constOperation ["NotFoundError"] (.error (.ParseError "Failed to parse response body")))
    () (.ParseError "Failed to parse response body")
    rfl (by decide) rfl (Or.inr rfl)).1

/-- C5: recordError appends records holding exactly service, operation, tag,
code, message and discoveredAt — isDocumented, category, triggerInput and
httpStatus are left undefined — so in every catalog generateServiceJson
builds from such records every operation has an empty documentedErrors
list, every entry has an undefined (falsy) isDocumented and an empty
triggerExamples list, and the summary reports documentedErrors = 0. -/
theorem c5_recordError_undocumented_catalog
    (service now : String) (errors : List DiscoveredError)
    (h : ∀ r ∈ errors, r.isDocumented = none ∧ r.triggerInput = none) :
    (∀ (ledger : List DiscoveredError) (s o t : String) (c : Nat) (m : String)
        (b : Bool) (n2 : String),
        recordError ledger s o t c m b n2 =
          ledger ++ [{ service := s, operation := o, tag := t, code := c,
                       message := m, httpStatus := none, discoveredAt := n2,
                       isDocumented := none, triggerInput := none,
                       category := none }]) ∧
    (∀ opName opErrs,
        lookupA (generateServiceJson service errors now).operations opName =
          some opErrs →
        opErrs.documentedErrors = [] ∧
        ∀ tag u, lookupA opErrs.errors tag = some u →
          u.isDocumented = none ∧ u.triggerExamples = []) ∧
    (generateServiceJson service errors now).summary.documentedErrors = 0 := by
  have hfilter : ∀ r ∈ errors.filter (fun e => e.service = service),
      r.isDocumented = none ∧ r.triggerInput = none :=
    fun r hr => h r (List.mem_of_mem_filter hr)
  have hinv := catalogState_undocumented _ hfilter
  refine ⟨fun _ _ _ _ _ _ _ _ => rfl, ?_, ?_⟩
  · intro opName opErrs hlk
    rcases lookupA_mem hlk with ⟨p, hp, _, hv⟩
    have hprop := hinv p hp
    rw [hv] at hprop
    refine ⟨hprop.1, ?_⟩
    intro tag u hlk2
    rcases lookupA_mem hlk2 with ⟨q, hq, _, hv2⟩
    have := hprop.2 q hq
    rw [hv2] at this
    exact this
  · have hfalse : ∀ u ∈ uniqueErrorsOf service errors,
        isDocTruthy u.isDocumented = false := by
      intro u hu
      rcases mem_uniqueErrorsOf hu with ⟨p, q, hp, hq, hv⟩
      have := (hinv p hp).2 q hq
      rw [hv] at this
      rw [this.1]
      rfl
    show ((uniqueErrorsOf service errors).filter
      (fun e => isDocTruthy e.isDocumented)).length = 0
    rw [List.length_eq_zero, List.filter_eq_nil_iff]
    intro a ha
    simp [hfalse a ha]

/-- C5 witness: two records appended by recordError produce a catalog whose
single operation has no documented errors, whose entries are undocumented
with no trigger examples, and whose summary counts zero documented. -/
theorem c5_recordError_undocumented_catalog_witness :
    (∀ r ∈ recordError
        (recordError [] "KV" "writeValue" "ValidationError" 1006 "bad" true "t0")
        "KV" "writeValue" "NotFoundError" 10000 "missing" true "t1",
      r.isDocumented = none ∧ r.triggerInput = none) ∧
    (generateServiceJson "KV"
      (recordError
        (recordError [] "KV" "writeValue" "ValidationError" 1006 "bad" true "t0")
        "KV" "writeValue" "NotFoundError" 10000 "missing" true "t1")
      "now").summary.documentedErrors = 0 :=
  ⟨by decide,
   (c5_recordError_undocumented_catalog "KV" "now"
     (recordError
       (recordError [] "KV" "writeValue" "ValidationError" 1006 "bad" true "t0")
       "KV" "writeValue" "NotFoundError" 10000 "missing" true "t1")
     (by decide)).2.2⟩

/-- C3 counterexample: two records sharing the full (service, operation,
category, providerCode) tuple but carrying different tags produce two
catalog entries with one occurrence each, not a single entry with
occurrences = 2 as the claim states — the aggregation key is the tag, not
the (category, providerCode) pair. -/
theorem c3_counterexample :
    ((generateServiceJson "KV" [sharedTupleRecordA, sharedTupleRecordB]
        "now").operations.map
      (fun p => (p.1, p.2.errors.map (fun q => (q.1, q.2.occurrences))))) =
      [("writeValue", [("ValidationError", 1), ("InvalidKey", 1)])] ∧
    sharedTupleRecordA.service = sharedTupleRecordB.service ∧
    sharedTupleRecordA.operation = sharedTupleRecordB.operation ∧
    sharedTupleRecordA.category = sharedTupleRecordB.category ∧
    sharedTupleRecordA.code = sharedTupleRecordB.code := by
  refine ⟨by decide, rfl, rfl, rfl, rfl⟩

/-- C3 (amended): catalog aggregation dedups entries by (service, operation,
tag): recording N observations sharing service, operation and tag yields
exactly one catalog entry for that tag with occurrences = N, and for any
input its triggerExamples list holds at most 3 pairwise distinct serialized
inputs, never growing beyond 3 even when N > 3. -/
theorem c3_dedup_by_tag (s o t : String) (errors : List DiscoveredError)
    (now : String) (hne : errors ≠ [])
    (hall : ∀ r ∈ errors, r.service = s ∧ r.operation = o ∧ r.tag = t) :
    ∃ d u, (generateServiceJson s errors now).operations =
        [(o, (⟨d, [(t, u)]⟩ : OperationErrors))] ∧
      u.occurrences = errors.length ∧
      u.triggerExamples.length ≤ 3 ∧ u.triggerExamples.Nodup := by
  have hfilter : errors.filter (fun e => e.service = s) = errors :=
    List.filter_eq_self.mpr (fun a ha => by simp [(hall a ha).1])
  have hops0 : (generateServiceJson s errors now).operations =
      (errors.foldl catStep ([], [])).1 := by
    show (catalogState (errors.filter (fun e => e.service = s))).1 = _
    rw [hfilter]
    rfl
  cases herr : errors with
  | nil => exact absurd herr hne
  | cons e rest =>
      have heo : e.operation = o := by
        have := hall e (by rw [herr]; simp)
        exact this.2.1
      have het : e.tag = t := by
        have := hall e (by rw [herr]; simp)
        exact this.2.2
      obtain ⟨d1, hfirst⟩ := recordIntoOperations_nil e
      rw [heo, het] at hfirst
      have hstep1 : (catStep (([], []) :
          List (String × OperationErrors) × List (String × (String × String))) e).1 =
          [(o, (⟨d1, [(t, bumpEntry e (newEntry e))]⟩ : OperationErrors))] := by
        show recordIntoOperations [] e = _
        exact hfirst
      obtain ⟨d2, u2, hrest, hocc⟩ := catalogState_shared_count rest o t
        (catStep ([], []) e) d1 (bumpEntry e (newEntry e))
        (fun x hx => ⟨(hall x (by rw [herr]; simp [hx])).2.1,
          (hall x (by rw [herr]; simp [hx])).2.2⟩) hstep1
      refine ⟨d2, u2, ?_, ?_, ?_⟩
      · rw [← herr, hops0, herr, List.foldl_cons]
        exact hrest
      · rw [hocc, bumpEntry_occurrences]
        simp [newEntry, herr]
        omega
      · have hmem : (o, (⟨d2, [(t, u2)]⟩ : OperationErrors)) ∈
            (catalogState errors).1 := by
          show _ ∈ (errors.foldl catStep ([], [])).1
          rw [herr, List.foldl_cons, hrest]
          simp
        have := catalogState_triggers_ok errors _ hmem (t, u2) (by simp)
        exact this

/-- C3 witness: four identical records yield the single entry of their tag
with occurrences = 4 and a bounded, duplicate-free triggerExamples list. -/
theorem c3_dedup_by_tag_witness :
    [sharedTupleRecordA, sharedTupleRecordA, sharedTupleRecordA,
      sharedTupleRecordA] ≠ ([] : List DiscoveredError) ∧
    ∃ d u, (generateServiceJson "KV"
        [sharedTupleRecordA, sharedTupleRecordA, sharedTupleRecordA,
          sharedTupleRecordA] "now").operations =
        [("writeValue", (⟨d, [("ValidationError", u)]⟩ : OperationErrors))] ∧
      u.occurrences = 4 ∧
      u.triggerExamples.length ≤ 3 ∧ u.triggerExamples.Nodup :=
  ⟨by decide,
   c3_dedup_by_tag "KV" "writeValue" "ValidationError"
     [sharedTupleRecordA, sharedTupleRecordA, sharedTupleRecordA,
       sharedTupleRecordA] "now" (by decide) (by decide)⟩

end DiscoverErrors
